import Mathlib

/-!
Verification of the grade classifier in `src/chengji.c`.

The program defines an enumeration `grdle` with tags A, B, C, D, E, a
classifier `getnum : int -> grdle` implemented as a cascade of comparisons,
and a `main` that reads one integer, prints a prompt, classifies, prints a
single character for the grade via a `switch`, and returns 0.

C `int` values are embedded as `Int`; every comparison in the source is on
values far from the 32-bit boundaries, so no overflow arises in the code
itself, and the spec's contract is stated over all integers.
-/

/-- The enumeration `grdle` from `src/chengji.c` lines 3-10. -/
inductive grdle where
  | A
  | B
  | C
  | D
  | E
deriving DecidableEq, Repr

/-- The classifier `getnum` from `src/chengji.c` lines 12-34, embedded
with C `int` as `Int`: a top-down cascade of comparisons. -/
def getnum (num : Int) : grdle :=
  if num ≥ 90 then grdle.A
  else if num ≥ 80 ∧ num < 90 then grdle.B
  else if num ≥ 70 ∧ num < 80 then grdle.C
  else if num ≥ 60 ∧ num < 70 then grdle.D
  else grdle.E

/-- The prompt string printed by `main` (`src/chengji.c` line 39). -/
def prompt : String := "请输入成绩："

/-- The `switch` statement in `main` (`src/chengji.c` lines 42-59): the
string printed for each grade tag; the `default` arm prints "E". -/
def printGrade (g : grdle) : String :=
  match g with
  | grdle.A => "A"
  | grdle.B => "B"
  | grdle.C => "C"
  | grdle.D => "D"
  | _ => "E"

/-- The full standard-output text of one run of `main` on a successfully
parsed integer `i` (`src/chengji.c` lines 36-61): the prompt followed by
the single grade character, nothing after it. -/
def mainOutput (i : Int) : String := prompt ++ printGrade (getnum i)

/-- The exit code of `main` (`src/chengji.c` line 60): `return 0;` is
reached unconditionally, whatever value the variable `i` holds. -/
def mainExit (_ : Int) : Nat := 0

/-- Rank of a grade in the order A < B < C < D < E (position 0 for A,
4 for E), used to state monotonicity of the classifier. -/
def rank (g : grdle) : Nat :=
  match g with
  | grdle.A => 0
  | grdle.B => 1
  | grdle.C => 2
  | grdle.D => 3
  | grdle.E => 4

/-- A cascade that tests only lower bounds, the simplification the spec's
design notes describe; compared with `getnum` for claim C10. -/
def getnum_lower_only (num : Int) : grdle :=
  if num ≥ 90 then grdle.A
  else if num ≥ 80 then grdle.B
  else if num ≥ 70 then grdle.C
  else if num ≥ 60 then grdle.D
  else grdle.E

/-- C1: for every integer s, getnum returns the label of the first
matching band of the spec's table, evaluated top-down: A if s ≥ 90,
B if 80 ≤ s < 90, C if 70 ≤ s < 80, D if 60 ≤ s < 70, and E otherwise. -/
theorem getnum_bands (s : Int) :
    (s ≥ 90 → getnum s = grdle.A) ∧
    (80 ≤ s ∧ s < 90 → getnum s = grdle.B) ∧
    (70 ≤ s ∧ s < 80 → getnum s = grdle.C) ∧
    (60 ≤ s ∧ s < 70 → getnum s = grdle.D) ∧
    (s < 60 → getnum s = grdle.E) := by
  unfold getnum
  refine ⟨?_, ?_, ?_, ?_, ?_⟩ <;> intro h <;> split_ifs <;> first | rfl | omega

/-- Witness for C1: one concrete score in each of the five bands. -/
theorem getnum_bands_witness :
    getnum 95 = grdle.A ∧ getnum 85 = grdle.B ∧ getnum 75 = grdle.C ∧
    getnum 65 = grdle.D ∧ getnum 55 = grdle.E :=
  ⟨(getnum_bands 95).1 (by decide),
   (getnum_bands 85).2.1 (by decide),
   (getnum_bands 75).2.2.1 (by decide),
   (getnum_bands 65).2.2.2.1 (by decide),
   (getnum_bands 55).2.2.2.2 (by decide)⟩

/-- C2: every integer below 60, including every negative integer and
zero, is classified E. -/
theorem getnum_below_60 (s : Int) (h : s < 60) : getnum s = grdle.E := by
  unfold getnum
  split_ifs <;> first | rfl | omega

/-- Witness for C2: a negative score classifies as E. -/
theorem getnum_below_60_witness : getnum (-7) = grdle.E :=
  getnum_below_60 (-7) (by decide)

/-- C3: the ten literal boundary inputs of the spec evaluate as stated. -/
theorem getnum_boundaries :
    getnum 90 = grdle.A ∧ getnum 89 = grdle.B ∧ getnum 80 = grdle.B ∧
    getnum 79 = grdle.C ∧ getnum 70 = grdle.C ∧ getnum 69 = grdle.D ∧
    getnum 60 = grdle.D ∧ getnum 59 = grdle.E ∧ getnum (-5) = grdle.E ∧
    getnum 1000 = grdle.A := by
  decide

/-- C4: getnum is total over the integers with result always one of the
five labels; no error branch exists. -/
theorem getnum_total (s : Int) :
    getnum s = grdle.A ∨ getnum s = grdle.B ∨ getnum s = grdle.C ∨
    getnum s = grdle.D ∨ getnum s = grdle.E := by
  unfold getnum
  split_ifs <;> simp

/-- C5: getnum is deterministic and pure: two calls on equal inputs give
identical labels, the result depending on nothing but the argument. -/
theorem getnum_deterministic (s1 s2 : Int) (h : s1 = s2) :
    getnum s1 = getnum s2 := by
  rw [h]

/-- Witness for C5: two runs at input 88 agree. -/
theorem getnum_deterministic_witness : getnum 88 = getnum 88 :=
  getnum_deterministic 88 88 rfl

/-- C6: for every parsed integer, the program's full standard output is
the prompt followed by exactly one character from A..E, the character
the switch prints for getnum of that integer, with nothing after it. -/
theorem mainOutput_shape (i : Int) :
    mainOutput i = prompt ++ printGrade (getnum i) ∧
    (printGrade (getnum i)).length = 1 ∧
    (printGrade (getnum i) = "A" ∨ printGrade (getnum i) = "B" ∨
     printGrade (getnum i) = "C" ∨ printGrade (getnum i) = "D" ∨
     printGrade (getnum i) = "E") := by
  refine ⟨rfl, ?_, ?_⟩ <;> cases h : getnum i <;> simp only [printGrade] <;> decide

/-- C7: main returns exit code 0 whatever value the input variable holds,
including any value it may hold when parsing produced no integer. -/
theorem mainExit_zero (i : Int) : mainExit i = 0 := rfl

/-- C8: the classification terminates on every integer input: getnum is a
total function and yields a result for every s. -/
theorem getnum_terminates (s : Int) : ∃ g : grdle, getnum s = g :=
  ⟨getnum s, rfl⟩

/-- C9: getnum is antitone with respect to grade rank: a lower score
never yields a better grade, so for s1 ≤ s2 the rank of getnum s1 is at
least the rank of getnum s2 in the order A < B < C < D < E. -/
theorem getnum_antitone (s1 s2 : Int) (h : s1 ≤ s2) :
    rank (getnum s2) ≤ rank (getnum s1) := by
  unfold getnum
  split_ifs <;> simp [rank] <;> omega

/-- Witness for C9: 50 ≤ 80, and the grade at 80 ranks no worse. -/
theorem getnum_antitone_witness : rank (getnum 80) ≤ rank (getnum 50) :=
  getnum_antitone 50 80 (by decide)

/-- C10: the upper-bound tests in the cascade are redundant: getnum is
extensionally equal to the cascade testing only lower bounds in order. -/
theorem getnum_eq_lower_only (s : Int) : getnum s = getnum_lower_only s := by
  unfold getnum getnum_lower_only
  split_ifs <;> first | rfl | omega
